import Mathlib

/-!
Shallow embedding of the art-showcase backend's image lifecycle and
social-interaction subsystem (src/models/Image.js, src/routes/images.js).

User ids (Mongo ObjectIds) are modelled as `Nat`; the string conversion
`toString()` used in the route handlers for id comparison is therefore plain
equality on `Nat`.  Timestamps are `Nat`.  The Mongo collection is a list of
`Image` records; the disk blob store (`uploads/` directory written by multer,
removed by `fs.unlink`) is a list of stored paths.
-/

/-- The Image schema of src/models/Image.js.  `id` is the Mongo `_id`;
`likes` is the array of liker user ids.  The schema's required
`cloudinaryId` path is never set by any route handler (the upload handler
sets `filename`, which is not a schema path), so it matters only through
save-validation of newly constructed documents — modelled in
`validUploadDoc` — and is absent from this persisted-record type: no
reachable stored record has it, and no handler reads it. -/
structure Image where
  id : Nat
  title : String
  description : String
  imageUrl : String
  filename : String
  artist : Nat
  artistUsername : String
  tags : List String
  likes : List Nat
  likesCount : Nat
  views : Nat
  category : String
  fileSize : Nat
  mimeType : String
  createdAt : Nat
  updatedAt : Nat
deriving Repr, DecidableEq

/-- Persistent state: the images collection plus the blob store
(paths of files present under `uploads/`). -/
structure DB where
  images : List Image
  blobs : List String
deriving Repr, DecidableEq

/-- `Image.findById(id)`: first record whose `_id` matches. -/
def findById (db : DB) (id : Nat) : Option Image :=
  db.images.find? (fun i => i.id == id)

/-- `document.save()` on a fetched record: writes the mutated record back
over the stored record with the same id. -/
def saveImage (db : DB) (img : Image) : DB :=
  { db with images := db.images.map (fun i => if i.id == img.id then img else i) }

/-! ## File filter (multer `fileFilter`, src/routes/images.js lines 22-39) -/

/-- `pat` occurs as a contiguous substring of `hay` (character lists). -/
def containsSub (hay pat : List Char) : Bool :=
  match hay with
  | [] => pat.isEmpty
  | _ :: t => pat.isPrefixOf hay || containsSub t pat

/-- Suffix of the list starting at its last `.` (inclusive), if any. -/
def lastDotSuffix : List Char → Option (List Char)
  | [] => none
  | c :: t =>
    match lastDotSuffix t with
    | some suf => some suf
    | none => if c = '.' then some (c :: t) else none

/-- Node's `path.extname` for a plain file name (no directory separators):
the suffix from the last `.`, including the dot; empty when the name has no
dot past its first character (so `.gitignore` has no extension). -/
def extname (s : String) : String :=
  match s.toList with
  | [] => ""
  | _ :: rest =>
    match lastDotSuffix rest with
    | some suf => String.mk suf
    | none => ""

/-- ASCII lowercasing of one character — the only case JavaScript's
`toLowerCase()` can change on the ASCII extensions this filter sees. -/
def charLower (c : Char) : Char :=
  if 'A' ≤ c ∧ c ≤ 'Z' then Char.ofNat (c.toNat + 32) else c

/-- `toLowerCase()` on an ASCII string. -/
def strLower (s : String) : String := String.mk (s.toList.map charLower)

/-- The alternatives of the regex literal `/jpeg|jpg|png|gif|webp/`. -/
def allowedTypes : List String := ["jpeg", "jpg", "png", "gif", "webp"]

/-- `allowedTypes.test(s)` for the unanchored regex: `s` contains one of the
alternatives as a substring. -/
def regexTestAllowed (s : String) : Bool :=
  allowedTypes.any (fun t => containsSub s.toList t.toList)

/-- multer `fileFilter`: accept iff the regex matches the lowercased
extension of `originalname` and also matches the declared MIME type. -/
def fileFilter (originalname mimetype : String) : Bool :=
  regexTestAllowed mimetype && regexTestAllowed (strLower (extname originalname))

/-! ## Route handlers as state transformers -/

inductive UploadResult where
  | invalidFileType
  | validationError
  | ok (img : Image)
deriving Repr, DecidableEq

/-- Mongoose save-validation of the required paths of imageSchema
(src/models/Image.js): `title`, `imageUrl`, `cloudinaryId`, `artist` and
`artistUsername` (a required String path fails on absence and on the empty
string; `artist` is a `Nat` here and always present; `trim` and the
`category` enum validator are not modelled — they cannot change the outcome
because the `cloudinaryId` check below already fails for every document the
upload handler builds). -/
def validUploadDoc (title imageUrl artistUsername : String)
    (cloudinaryId : Option String) : Bool :=
  (!(title == "")) && (!(imageUrl == "")) && (!(artistUsername == ""))
    && cloudinaryId.isSome

/-- `POST /upload`: multer's `fileFilter` rejects the request before any
file is written (no blob, no record); on acceptance multer stores the file
under `uploads/` and the handler constructs an Image document — with
`filename`, but with no `cloudinaryId`, which the schema requires — and
calls `image.save()`.  Save-validation therefore rejects every such
document; the catch block unlinks the just-stored file and answers 500.
The valid branch (unreachable, kept for structural fidelity) would append
the record with empty likes, zero counters and
`createdAt = updatedAt = now` (schema defaults).  `storedFilename` is the
unique name multer generates, `newId` the id Mongo would assign, `now` the
schema-default timestamp. -/
def uploadImage (db : DB) (userId : Nat) (username : String)
    (originalname mimetype : String) (size : Nat)
    (title description : String) (tags : List String) (category : String)
    (storedFilename : String) (newId now : Nat) : UploadResult × DB :=
  if fileFilter originalname mimetype then
    let imageUrl := "/uploads/" ++ storedFilename
    let db1 : DB := { db with blobs := db.blobs ++ [imageUrl] }
    if validUploadDoc title imageUrl username none then
      let img : Image :=
        { id := newId, title := title, description := description,
          imageUrl := imageUrl, filename := storedFilename,
          artist := userId, artistUsername := username, tags := tags,
          likes := [], likesCount := 0, views := 0,
          category := category, fileSize := size, mimeType := mimetype,
          createdAt := now, updatedAt := now }
      (.ok img, { db1 with images := db1.images ++ [img] })
    else
      (.validationError,
       { db1 with blobs := db1.blobs.filter (fun b => !(b == imageUrl)) })
  else (.invalidFileType, db)

inductive LikeResult where
  | notFound
  | alreadyLiked
  | ok (likesCount : Nat)
deriving Repr, DecidableEq

/-- Write phase of the like handler: `image.likes.push(userId)`,
`image.likesCount = image.likes.length`, `await image.save()` — applied to
the snapshot `img` that the handler read earlier. -/
def likeWrite (db : DB) (img : Image) (userId : Nat) : DB :=
  saveImage db { img with likes := img.likes ++ [userId],
                          likesCount := (img.likes ++ [userId]).length }

/-- `POST /:id/like` (read phase followed immediately by the write phase):
404 if absent, 400 `Already liked` if the user id is already in `likes`,
otherwise push, recount, save, and answer with the new `likesCount`. -/
def likeImage (db : DB) (id userId : Nat) : LikeResult × DB :=
  match findById db id with
  | none => (.notFound, db)
  | some img =>
    if img.likes.any (fun l => l == userId) then (.alreadyLiked, db)
    else (.ok (img.likes ++ [userId]).length, likeWrite db img userId)

inductive UnlikeResult where
  | notFound
  | ok (likesCount : Nat)
deriving Repr, DecidableEq

/-- `DELETE /:id/like`: 404 if absent; otherwise filter the user id out of
`likes`, recount, save, and answer with the new `likesCount` (no error when
the user was not a member). -/
def unlikeImage (db : DB) (id userId : Nat) : UnlikeResult × DB :=
  match findById db id with
  | none => (.notFound, db)
  | some img =>
    let rest := img.likes.filter (fun l => !(l == userId))
    (.ok rest.length, saveImage db { img with likes := rest, likesCount := rest.length })

/-- `GET /:id`: 404 if absent; otherwise `image.views += 1`, save, and
return the updated record. -/
def getImage (db : DB) (id : Nat) : Option Image × DB :=
  match findById db id with
  | none => (none, db)
  | some img =>
    let img2 := { img with views := img.views + 1 }
    (some img2, saveImage db img2)

/-- `n` sequential `GET /:id` fetches. -/
def recordViewN (db : DB) (id : Nat) : Nat → DB
  | 0 => db
  | Nat.succ n => recordViewN (getImage db id).2 id n

inductive DeleteResult where
  | notFound
  | forbidden
  | ok
deriving Repr, DecidableEq

/-- `DELETE /:id`: 404 if absent; 403 unless `image.artist` equals the
requesting user id; otherwise `fs.unlink` of the blob (best-effort: an error
is only logged, modelled by `unlinkOk = false` leaving the blob in place),
then unconditional removal of the database record, then success. -/
def deleteImage (db : DB) (id userId : Nat) (unlinkOk : Bool) : DeleteResult × DB :=
  match findById db id with
  | none => (.notFound, db)
  | some img =>
    if !(img.artist == userId) then (.forbidden, db)
    else
      let blobs2 := if unlinkOk then db.blobs.filter (fun b => !(b == img.imageUrl))
                    else db.blobs
      (.ok, { images := db.images.filter (fun i => !(i.id == id)), blobs := blobs2 })

/-! ## Pagination (`GET /` handler) -/

/-- `sort({createdAt: -1})`: newest first. -/
def newerFirst (a b : Image) : Prop := b.createdAt ≤ a.createdAt

instance : DecidableRel newerFirst := fun a b => Nat.decLe b.createdAt a.createdAt

instance : IsTotal Image newerFirst :=
  ⟨fun a b => Nat.le_total b.createdAt a.createdAt⟩

instance : IsTrans Image newerFirst :=
  ⟨fun _ _ _ hab hbc => Nat.le_trans hbc hab⟩

def sortNewestFirst (l : List Image) : List Image := List.insertionSort newerFirst l

/-- `GET /` with query `page`/`limit`: `skip = (page-1)*limit`, then
`find().sort({createdAt:-1}).skip(skip).limit(limit)` together with
`countDocuments()`. -/
def listPage (db : DB) (page limit : Nat) : List Image × Nat :=
  (((sortNewestFirst db.images).drop ((page - 1) * limit)).take limit,
   db.images.length)

/-- `Math.ceil(total / limit)` as computed for the `totalPages` field. -/
def totalPages (total limit : Nat) : Nat := (total + limit - 1) / limit

/-! ## Mutation sequences and the count invariant -/

/-- One completed mutating request against a fixed image collection. -/
inductive MutOp where
  | like (id userId : Nat)
  | unlike (id userId : Nat)
  | view (id : Nat)
deriving Repr, DecidableEq

def applyOp (db : DB) : MutOp → DB
  | .like id u => (likeImage db id u).2
  | .unlike id u => (unlikeImage db id u).2
  | .view id => (getImage db id).2

def applyOps (db : DB) (ops : List MutOp) : DB := ops.foldl applyOp db

/-- The denormalised-counter invariant of one record. -/
def countInv (img : Image) : Prop := img.likesCount = img.likes.length

instance (img : Image) : Decidable (countInv img) :=
  inferInstanceAs (Decidable (img.likesCount = img.likes.length))

/-- The invariant holds of every stored record. -/
def dbCountInv (db : DB) : Prop := ∀ img ∈ db.images, countInv img

instance (db : DB) : Decidable (dbCountInv db) :=
  List.decidableBAll countInv db.images

/-! ## Concrete fixtures for witnesses -/

/-- A concrete stored image owned by user 5, with no likes yet. -/
def imgW : Image :=
  { id := 1, title := "sunset", description := "", imageUrl := "/uploads/f1",
    filename := "f1", artist := 5, artistUsername := "alice", tags := [],
    likes := [], likesCount := 0, views := 0, category := "other",
    fileSize := 3, mimeType := "image/png", createdAt := 10, updatedAt := 10 }

/-- A one-image database. -/
def dbW : DB := { images := [imgW], blobs := ["/uploads/f1"] }

/-- A concrete stored image already liked by user 7. -/
def imgW3 : Image :=
  { id := 2, title := "dawn", description := "", imageUrl := "/uploads/f2",
    filename := "f2", artist := 5, artistUsername := "alice", tags := [],
    likes := [7], likesCount := 1, views := 0, category := "other",
    fileSize := 3, mimeType := "image/png", createdAt := 11, updatedAt := 11 }

def dbW3 : DB := { images := [imgW3], blobs := ["/uploads/f2"] }

/-- A population of `n` images with distinct ids and creation times. -/
def mkImage (k : Nat) : Image :=
  { id := k, title := "t", description := "", imageUrl := "/uploads/g",
    filename := "g", artist := 0, artistUsername := "a", tags := [],
    likes := [], likesCount := 0, views := 0, category := "other",
    fileSize := 0, mimeType := "image/png", createdAt := k, updatedAt := k }

def mkDb (n : Nat) : DB := { images := (List.range n).map mkImage, blobs := [] }

/-! ## Helper lemmas -/

theorem find?_map_replace (l : List Image) (q : Nat) (img2 : Image)
    (hq : img2.id = q)
    (h : (l.find? (fun i => i.id == q)).isSome) :
    (l.map (fun i => if i.id == img2.id then img2 else i)).find?
      (fun i => i.id == q) = some img2 := by
  induction l with
  | nil => simp [List.find?] at h
  | cons a t ih =>
    by_cases ha : a.id = q
    · simp [List.find?, ha, hq]
    · have ha2 : (a.id == q) = false := by simp [ha]
      have ha3 : (a.id == img2.id) = false := by simp [hq, ha]
      simp only [List.find?, ha2, List.map_cons, ha3, if_neg] at h ⊢
      simp only [ha3, Bool.false_eq_true, if_false, List.find?, ha2]
      exact ih h

theorem find?_map_replace_other (l : List Image) (q : Nat) (img2 : Image)
    (hq : ¬ img2.id = q) :
    (l.map (fun i => if i.id == img2.id then img2 else i)).find?
      (fun i => i.id == q) = l.find? (fun i => i.id == q) := by
  induction l with
  | nil => rfl
  | cons a t ih =>
    by_cases ha : a.id = img2.id
    · have h1 : (a.id == q) = false := by simp [ha, hq]
      have h2 : (img2.id == q) = false := by simp [hq]
      have hb : (a.id == img2.id) = true := by simp [ha]
      simp only [List.map_cons, List.find?, hb, if_true, h1, h2]
      exact ih
    · have hb : (a.id == img2.id) = false := by simp [ha]
      by_cases haq : a.id = q
      · have h1 : (a.id == q) = true := by simp [haq]
        simp only [List.map_cons, List.find?, hb, Bool.false_eq_true, if_false, h1]
      · have h1 : (a.id == q) = false := by simp [haq]
        simp only [List.map_cons, List.find?, hb, Bool.false_eq_true, if_false, h1]
        exact ih

theorem findById_saveImage_self (db : DB) (img img2 : Image)
    (hid : img2.id = img.id) (h : findById db img.id = some img) :
    findById (saveImage db img2) img.id = some img2 := by
  have hs : (db.images.find? (fun i => i.id == img.id)).isSome := by
    unfold findById at h; simp [h]
  exact find?_map_replace db.images img.id img2 hid hs

theorem findById_saveImage_other (db : DB) (img2 : Image) (q : Nat)
    (hq : ¬ img2.id = q) :
    findById (saveImage db img2) q = findById db q :=
  find?_map_replace_other db.images q img2 hq

theorem findById_mem (db : DB) (id : Nat) (img : Image)
    (h : findById db id = some img) : img ∈ db.images :=
  List.mem_of_find?_eq_some h

theorem findById_id (db : DB) (id : Nat) (img : Image)
    (h : findById db id = some img) : img.id = id := by
  have := List.find?_some h
  simpa using this

theorem dbCountInv_saveImage (db : DB) (img2 : Image)
    (h : dbCountInv db) (h2 : countInv img2) :
    dbCountInv (saveImage db img2) := by
  intro x hx
  rcases List.mem_map.1 hx with ⟨a, ha, hax⟩
  by_cases hc : (a.id == img2.id) = true
  · rw [if_pos hc] at hax; exact hax ▸ h2
  · rw [if_neg hc] at hax; exact hax ▸ h a ha

theorem filter_ne_of_not_mem (l : List Nat) (u : Nat) (hm : u ∉ l) :
    l.filter (fun x => !(x == u)) = l := by
  apply List.filter_eq_self.2
  intro a ha
  simp only [Bool.not_eq_eq_eq_not, Bool.not_true, beq_eq_false_iff_ne, ne_eq]
  intro hau
  exact hm (hau ▸ ha)

theorem filter_ne_of_not_mem_str (l : List String) (u : String)
    (hm : u ∉ l) : l.filter (fun x => !(x == u)) = l := by
  apply List.filter_eq_self.2
  intro a ha
  simp only [Bool.not_eq_eq_eq_not, Bool.not_true, beq_eq_false_iff_ne, ne_eq]
  intro hau
  exact hm (hau ▸ ha)

theorem length_filter_ne_of_nodup (l : List Nat) (u : Nat)
    (hnd : l.Nodup) (hm : u ∈ l) :
    (l.filter (fun x => !(x == u))).length = l.length - 1 := by
  induction l with
  | nil => cases hm
  | cons a t ih =>
    rcases List.mem_cons.1 hm with rfl | hmt
    · have hat : u ∉ t := (List.nodup_cons.1 hnd).1
      simp [List.filter, filter_ne_of_not_mem t u hat]
    · have ha : ¬ a = u := fun h => (List.nodup_cons.1 hnd).1 (h ▸ hmt)
      have h1 : (!(a == u)) = true := by simp [ha]
      have ht : 1 ≤ t.length := List.length_pos.2 (List.ne_nil_of_mem hmt)
      simp only [List.filter, h1, List.length_cons,
        ih (List.nodup_cons.1 hnd).2 hmt]
      omega

theorem find?_filter_ne_none (l : List Image) (id : Nat) :
    (l.filter (fun i => !(i.id == id))).find? (fun i => i.id == id) = none := by
  rw [List.find?_eq_none]
  intro a ha
  have h2 := (List.mem_filter.1 ha).2
  simp only [Bool.not_eq_eq_eq_not, Bool.not_true, beq_eq_false_iff_ne, ne_eq] at h2
  simp [h2]

theorem countInv_applyOp (db : DB) (op : MutOp) (h : dbCountInv db) :
    dbCountInv (applyOp db op) := by
  cases op with
  | like id u =>
    simp only [applyOp, likeImage]
    cases hf : findById db id with
    | none => exact h
    | some img =>
      by_cases hl : img.likes.any (fun l => l == u) = true
      · simp only [hl, if_true]; exact h
      · simp only [hl, Bool.false_eq_true, if_false, likeWrite]
        exact dbCountInv_saveImage db _ h rfl
  | unlike id u =>
    simp only [applyOp, unlikeImage]
    cases hf : findById db id with
    | none => exact h
    | some img => exact dbCountInv_saveImage db _ h rfl
  | view id =>
    simp only [applyOp, getImage]
    cases hf : findById db id with
    | none => exact h
    | some img =>
      have hinv : countInv img := h img (findById_mem db id img hf)
      exact dbCountInv_saveImage db _ h hinv

theorem findById_saveImage_map_eq (db : DB) (img img2 : Image) (f : Image → Nat)
    (hid : img2.id = img.id) (h : findById db img.id = some img)
    (hf : f img2 = f img) (q : Nat) :
    (findById (saveImage db img2) q).map f = (findById db q).map f := by
  by_cases hq : q = img.id
  · subst hq
    rw [findById_saveImage_self db img img2 hid h, h]
    simp [hf]
  · rw [findById_saveImage_other db img2 q (by rw [hid]; intro hh; exact hq hh.symm)]

theorem updatedAt_applyOp (db : DB) (op : MutOp) (q : Nat) :
    (findById (applyOp db op) q).map Image.updatedAt
      = (findById db q).map Image.updatedAt := by
  cases op with
  | like id u =>
    simp only [applyOp, likeImage]
    cases hf : findById db id with
    | none => rfl
    | some img =>
      have hid := findById_id db id img hf
      by_cases hl : img.likes.any (fun l => l == u) = true
      · simp only [hl, if_true]
      · simp only [hl, Bool.false_eq_true, if_false, likeWrite]
        exact findById_saveImage_map_eq db img
          { img with likes := img.likes ++ [u],
                     likesCount := (img.likes ++ [u]).length }
          Image.updatedAt rfl (by rw [hid]; exact hf) rfl q
  | unlike id u =>
    simp only [applyOp, unlikeImage]
    cases hf : findById db id with
    | none => rfl
    | some img =>
      have hid := findById_id db id img hf
      exact findById_saveImage_map_eq db img
        { img with likes := img.likes.filter (fun l => !(l == u)),
                   likesCount := (img.likes.filter (fun l => !(l == u))).length }
        Image.updatedAt rfl (by rw [hid]; exact hf) rfl q
  | view id =>
    simp only [applyOp, getImage]
    cases hf : findById db id with
    | none => rfl
    | some img =>
      have hid := findById_id db id img hf
      exact findById_saveImage_map_eq db img
        { img with views := img.views + 1 }
        Image.updatedAt rfl (by rw [hid]; exact hf) rfl q

/-- Claim C1: starting from any state in which every stored image's
`likesCount` equals the length of its `likes` list (as holds for freshly
uploaded records), the invariant still holds of every stored image after
any sequence of completed like/unlike (and view) operations. -/
theorem C1_likesCount_invariant (db : DB) (h : dbCountInv db) (ops : List MutOp) :
    dbCountInv (applyOps db ops) := by
  induction ops generalizing db with
  | nil => exact h
  | cons op t ih => exact ih (applyOp db op) (countInv_applyOp db op h)

theorem C1_witness :
    dbCountInv dbW ∧
      dbCountInv (applyOps dbW [MutOp.like 1 7, MutOp.like 1 8, MutOp.unlike 1 7]) :=
  ⟨by decide,
   C1_likesCount_invariant dbW (by decide)
     [MutOp.like 1 7, MutOp.like 1 8, MutOp.unlike 1 7]⟩

/-- Claim C10: the like, unlike and view mutations never change the
`updatedAt` field of any stored image: after any sequence of such completed
operations, looking any id up yields a record with the same `updatedAt` as
before the sequence, so `updatedAt` keeps its creation-time value. -/
theorem C10_updatedAt_frame (db : DB) (ops : List MutOp) (q : Nat) :
    (findById (applyOps db ops) q).map Image.updatedAt
      = (findById db q).map Image.updatedAt := by
  induction ops generalizing db with
  | nil => rfl
  | cons op t ih =>
    calc (findById (applyOps (applyOp db op) t) q).map Image.updatedAt
        = (findById (applyOp db op) q).map Image.updatedAt := ih (applyOp db op)
      _ = (findById db q).map Image.updatedAt := updatedAt_applyOp db op q

/-- Claim C6: deleting an image whose `artist` differs from the requesting
user id answers 403 Forbidden and leaves the whole state (records and blobs)
unchanged; the image stays retrievable. -/
theorem C6_delete_forbidden (db : DB) (id userId : Nat) (img : Image)
    (unlinkOk : Bool) (h : findById db id = some img)
    (hown : ¬ img.artist = userId) :
    deleteImage db id userId unlinkOk = (DeleteResult.forbidden, db) ∧
    findById (deleteImage db id userId unlinkOk).2 id = some img := by
  have hb : (!(img.artist == userId)) = true := by simp [hown]
  constructor
  · simp only [deleteImage, h, hb, if_true]
  · simp only [deleteImage, h, hb, if_true]

theorem C6_witness :
    findById dbW 1 = some imgW ∧ ¬ imgW.artist = 6 ∧
    (deleteImage dbW 1 6 true = (DeleteResult.forbidden, dbW) ∧
     findById (deleteImage dbW 1 6 true).2 1 = some imgW) :=
  ⟨by decide, by decide,
   C6_delete_forbidden dbW 1 6 imgW true (by decide) (by decide)⟩

/-- Claim C7: deleting an owned image removes the database record
unconditionally — also when the blob-removal step fails (`unlinkOk = false`)
— success is the reported result, and a subsequent fetch returns nothing. -/
theorem C7_delete_owner (db : DB) (id userId : Nat) (img : Image)
    (unlinkOk : Bool) (h : findById db id = some img)
    (hown : img.artist = userId) :
    (deleteImage db id userId unlinkOk).1 = DeleteResult.ok ∧
    findById (deleteImage db id userId unlinkOk).2 id = none := by
  have hb : (!(img.artist == userId)) = false := by simp [hown]
  constructor
  · simp only [deleteImage, h, hb, Bool.false_eq_true, if_false]
  · have h2 : db.images.find? (fun i => i.id == id) = some img := h
    simp only [deleteImage, findById, h2, hb, Bool.false_eq_true, if_false]
    exact find?_filter_ne_none db.images id

theorem C7_witness :
    findById dbW 1 = some imgW ∧ imgW.artist = 5 ∧
    ((deleteImage dbW 1 5 false).1 = DeleteResult.ok ∧
     findById (deleteImage dbW 1 5 false).2 1 = none) :=
  ⟨by decide, by decide,
   C7_delete_owner dbW 1 5 imgW false (by decide) (by decide)⟩

/-- Claim C2: liking an existing image a user already liked answers 400
`Already liked` and changes nothing; liking as a fresh user appends the id,
sets `likesCount` to the new length, saves, and answers the new count. -/
theorem C2_like_behavior (db : DB) (id userId : Nat) (img : Image)
    (h : findById db id = some img) :
    (img.likes.any (fun l => l == userId) = true →
       likeImage db id userId = (LikeResult.alreadyLiked, db)) ∧
    (img.likes.any (fun l => l == userId) = false →
       likeImage db id userId
         = (LikeResult.ok (img.likes.length + 1),
            saveImage db { img with likes := img.likes ++ [userId],
                                    likesCount := img.likes.length + 1 }) ∧
       findById (likeImage db id userId).2 id
         = some { img with likes := img.likes ++ [userId],
                           likesCount := img.likes.length + 1 }) := by
  have hid := findById_id db id img h
  subst hid
  constructor
  · intro hl
    simp only [likeImage, h, hl, if_true]
  · intro hl
    have e1 : (img.likes ++ [userId]).length = img.likes.length + 1 := by simp
    constructor
    · simp only [likeImage, h, hl, Bool.false_eq_true, if_false, likeWrite, e1]
    · simp only [likeImage, h, hl, Bool.false_eq_true, if_false, likeWrite, e1]
      exact findById_saveImage_self db img
        { img with likes := img.likes ++ [userId],
                   likesCount := img.likes.length + 1 } rfl h

theorem C2_witness :
    findById dbW3 2 = some imgW3 ∧
    ((imgW3.likes.any (fun l => l == 7) = true →
        likeImage dbW3 2 7 = (LikeResult.alreadyLiked, dbW3)) ∧
     (imgW3.likes.any (fun l => l == 7) = false →
        likeImage dbW3 2 7
          = (LikeResult.ok (imgW3.likes.length + 1),
             saveImage dbW3 { imgW3 with likes := imgW3.likes ++ [7],
                                         likesCount := imgW3.likes.length + 1 }) ∧
        findById (likeImage dbW3 2 7).2 2
          = some { imgW3 with likes := imgW3.likes ++ [7],
                              likesCount := imgW3.likes.length + 1 })) :=
  ⟨by decide, C2_like_behavior dbW3 2 7 imgW3 (by decide)⟩

/-- Claim C3: unliking an existing image as a non-member is a no-op that
succeeds and answers the unchanged count; unliking as a member removes the
id and answers the decremented count.  The hypotheses are the record
invariants (count matches the liker list, the liker list has no
duplicates) that C1 and C2 establish for every reachable record. -/
theorem C3_unlike_behavior (db : DB) (id userId : Nat) (img : Image)
    (h : findById db id = some img) (hinv : countInv img)
    (hnd : img.likes.Nodup) :
    (userId ∉ img.likes →
       unlikeImage db id userId
         = (UnlikeResult.ok img.likesCount, saveImage db img) ∧
       findById (unlikeImage db id userId).2 id = some img) ∧
    (userId ∈ img.likes →
       (unlikeImage db id userId).1 = UnlikeResult.ok (img.likesCount - 1) ∧
       findById (unlikeImage db id userId).2 id
         = some { img with likes := img.likes.filter (fun l => !(l == userId)),
                           likesCount := img.likesCount - 1 }) := by
  have hid := findById_id db id img h
  subst hid
  have hinv2 : img.likesCount = img.likes.length := hinv
  constructor
  · intro hm
    have hfe : img.likes.filter (fun l => !(l == userId)) = img.likes :=
      filter_ne_of_not_mem img.likes userId hm
    have himg : ({ img with likes := img.likes,
                            likesCount := img.likes.length } : Image) = img := by
      rw [← hinv2]
    constructor
    · simp only [unlikeImage, h, hfe, himg, hinv2]
    · simp only [unlikeImage, h, hfe, himg]
      exact findById_saveImage_self db img img rfl h
  · intro hm
    have hlen : (img.likes.filter (fun l => !(l == userId))).length
        = img.likesCount - 1 := by
      rw [length_filter_ne_of_nodup img.likes userId hnd hm, hinv2]
    constructor
    · simp only [unlikeImage, h, hlen]
    · simp only [unlikeImage, h, hlen]
      exact findById_saveImage_self db img
        { img with likes := img.likes.filter (fun l => !(l == userId)),
                   likesCount := img.likesCount - 1 } rfl h

theorem C3_witness :
    findById dbW3 2 = some imgW3 ∧ countInv imgW3 ∧ imgW3.likes.Nodup ∧
    (((9 : Nat) ∉ imgW3.likes →
        unlikeImage dbW3 2 9
          = (UnlikeResult.ok imgW3.likesCount, saveImage dbW3 imgW3) ∧
        findById (unlikeImage dbW3 2 9).2 2 = some imgW3) ∧
     ((9 : Nat) ∈ imgW3.likes →
        (unlikeImage dbW3 2 9).1 = UnlikeResult.ok (imgW3.likesCount - 1) ∧
        findById (unlikeImage dbW3 2 9).2 2
          = some { imgW3 with likes := imgW3.likes.filter (fun l => !(l == 9)),
                              likesCount := imgW3.likesCount - 1 })) :=
  ⟨by decide, by decide, by decide,
   C3_unlike_behavior dbW3 2 9 imgW3 (by decide) (by decide) (by decide)⟩

theorem recordViewN_views (db : DB) (id : Nat) (img : Image) (n : Nat)
    (h : findById db id = some img) :
    findById (recordViewN db id n) id = some { img with views := img.views + n } := by
  induction n generalizing db img with
  | zero => exact h
  | succ n ih =>
    have hid := findById_id db id img h
    have h2 : findById (saveImage db { img with views := img.views + 1 }) id
        = some { img with views := img.views + 1 } := by
      subst hid
      exact findById_saveImage_self db img { img with views := img.views + 1 } rfl h
    have hg : (getImage db id).2 = saveImage db { img with views := img.views + 1 } := by
      simp only [getImage, h]
    have hstep : recordViewN db id (n + 1) = recordViewN (getImage db id).2 id n := rfl
    rw [hstep, hg]
    have harith : img.views + (n + 1) = img.views + 1 + n := by omega
    rw [harith]
    exact ih (saveImage db { img with views := img.views + 1 })
      { img with views := img.views + 1 } h2

/-- Claim C5: fetching an existing image by id increments its view counter
by exactly 1, saves, and returns the updated full record; `n` sequential
fetches increase the counter by exactly `n`; fetching an absent id is a
404 no-op. -/
theorem C5_recordView (db : DB) (id : Nat) (img : Image) (n : Nat)
    (h : findById db id = some img) :
    getImage db id = (some { img with views := img.views + 1 },
                      saveImage db { img with views := img.views + 1 }) ∧
    findById (recordViewN db id n) id = some { img with views := img.views + n } ∧
    (∀ db2 : DB, findById db2 id = none → getImage db2 id = (none, db2)) := by
  refine ⟨?_, recordViewN_views db id img n h, ?_⟩
  · simp only [getImage, h]
  · intro db2 h2
    simp only [getImage, h2]

theorem C5_witness :
    findById dbW 1 = some imgW ∧
    (getImage dbW 1 = (some { imgW with views := imgW.views + 1 },
                       saveImage dbW { imgW with views := imgW.views + 1 }) ∧
     findById (recordViewN dbW 1 3) 1 = some { imgW with views := imgW.views + 3 } ∧
     (∀ db2 : DB, findById db2 1 = none → getImage db2 1 = (none, db2))) :=
  ⟨by decide, C5_recordView dbW 1 imgW 3 (by decide)⟩

/-- Claim C4: the rejection direction holds — a combination refused by the
filter fails with InvalidFileType and creates no record and no blob — but
no combination is ever accepted either: whenever the filter passes, the
handler's document lacks the schema-required `cloudinaryId`, so `save()`
rejects it with a ValidationError, the catch block unlinks the just-stored
file, and the state is unchanged.  No upload ever creates an Image record
or a durable blob, contradicting the claim's acceptance direction. -/
theorem C4_upload_validation (db : DB) (userId : Nat)
    (username originalname mimetype : String) (size : Nat)
    (title description : String) (tags : List String)
    (category storedFilename : String) (newId now : Nat)
    (hfresh : ("/uploads/" ++ storedFilename) ∉ db.blobs) :
    ((uploadImage db userId username originalname mimetype size title
        description tags category storedFilename newId now).1
        = UploadResult.invalidFileType ∨
     (uploadImage db userId username originalname mimetype size title
        description tags category storedFilename newId now).1
        = UploadResult.validationError) ∧
    (uploadImage db userId username originalname mimetype size title
        description tags category storedFilename newId now).2 = db := by
  by_cases hf : fileFilter originalname mimetype = true
  · have hv : validUploadDoc title ("/uploads/" ++ storedFilename) username
        none = false := by
      simp [validUploadDoc]
    have hblobs :
        (db.blobs ++ ["/uploads/" ++ storedFilename]).filter
          (fun b => !(b == "/uploads/" ++ storedFilename)) = db.blobs := by
      rw [List.filter_append, filter_ne_of_not_mem_str db.blobs _ hfresh]
      simp
    constructor
    · right
      simp [uploadImage, hf, hv]
    · simp [uploadImage, hf, hv, hblobs]
  · have hf2 : fileFilter originalname mimetype = false := by
      cases hval : fileFilter originalname mimetype
      · rfl
      · exact absurd hval hf
    constructor
    · left
      simp [uploadImage, hf2]
    · simp [uploadImage, hf2]

theorem C4_witness :
    ("/uploads/" ++ "f9") ∉ dbW.blobs ∧
    (((uploadImage dbW 5 "alice" "a.jpg" "image/jpeg" 3 "t" "" [] "other"
         "f9" 9 12).1 = UploadResult.invalidFileType ∨
      (uploadImage dbW 5 "alice" "a.jpg" "image/jpeg" 3 "t" "" [] "other"
         "f9" 9 12).1 = UploadResult.validationError) ∧
     (uploadImage dbW 5 "alice" "a.jpg" "image/jpeg" 3 "t" "" [] "other"
         "f9" 9 12).2 = dbW) :=
  ⟨by decide,
   C4_upload_validation dbW 5 "alice" "a.jpg" "image/jpeg" 3 "t" "" [] "other"
     "f9" 9 12 (by decide)⟩

/-- Claim C9 refutation witness: the like handler is a read phase
(`findById`) followed by a separate whole-document write phase
(`likeWrite`, mirroring Mongoose `save()`), not a single atomic update.
When two like requests by users 10 and 20 both read image 1 before either
write (an interleaving the event-loop concurrency of the server permits),
the second write overwrites the first and one like is lost: the final
`likesCount` is 1, while the two serialized requests (both of which were
answered `ok 1`) would leave 2. -/
theorem C9_lost_update :
    findById dbW 1 = some imgW ∧
    (likeImage dbW 1 10).1 = LikeResult.ok 1 ∧
    (likeImage dbW 1 20).1 = LikeResult.ok 1 ∧
    (findById (likeWrite (likeWrite dbW imgW 10) imgW 20) 1).map Image.likesCount
      = some 1 ∧
    (findById (applyOps dbW [MutOp.like 1 10, MutOp.like 1 20]) 1).map
        Image.likesCount = some 2 := by
  refine ⟨by decide, by decide, by decide, by decide, by decide⟩

/-- Claim C8: the paginated listing returns a newest-first sorted slice that
skips exactly `(page-1)*limit` records and holds
`min limit (total - skip)` of them (so a page past the end is empty, not an
error), together with the total count; `totalPages` is the ceiling of
`total / limit` (characterised by its Galois property, and equal to 3 for
50 records with page size 20, where page 3 holds 10 items). -/
theorem C8_pagination (db : DB) (page limit : Nat) (hp : 0 < page)
    (hl : 0 < limit) :
    List.Sorted newerFirst (listPage db page limit).1 ∧
    (listPage db page limit).1
      = ((sortNewestFirst db.images).drop ((page - 1) * limit)).take limit ∧
    (listPage db page limit).2 = db.images.length ∧
    (∀ m : Nat, totalPages (listPage db page limit).2 limit ≤ m
        ↔ (listPage db page limit).2 ≤ limit * m) ∧
    (db.images.length ≤ (page - 1) * limit → (listPage db page limit).1 = []) ∧
    ((listPage db page limit).1.length
        = min limit (db.images.length - (page - 1) * limit)) ∧
    (db.images.length = 50 → page = 3 → limit = 20 →
       (listPage db page limit).1.length = 10 ∧
       totalPages (listPage db page limit).2 limit = 3) := by
  refine ⟨?_, rfl, rfl, ?_, ?_, ?_, ?_⟩
  · have hs : List.Sorted newerFirst (sortNewestFirst db.images) :=
      List.sorted_insertionSort newerFirst db.images
    have hsub : List.Sublist (listPage db page limit).1 (sortNewestFirst db.images) :=
      List.Sublist.trans (List.take_sublist _ _) (List.drop_sublist _ _)
    exact hs.sublist hsub
  · intro m
    show totalPages db.images.length limit ≤ m ↔ db.images.length ≤ limit * m
    have h1 : totalPages db.images.length limit = db.images.length ⌈/⌉ limit := rfl
    rw [h1]
    exact gc_mul_ceilDiv hl db.images.length m
  · intro h
    show ((sortNewestFirst db.images).drop ((page - 1) * limit)).take limit = []
    have h2 : (sortNewestFirst db.images).drop ((page - 1) * limit) = [] := by
      apply List.drop_eq_nil_of_le
      rw [sortNewestFirst, List.length_insertionSort newerFirst db.images]
      exact h
    rw [h2, List.take_nil]
  · show (((sortNewestFirst db.images).drop ((page - 1) * limit)).take limit).length
        = min limit (db.images.length - (page - 1) * limit)
    rw [List.length_take, List.length_drop, sortNewestFirst,
      List.length_insertionSort newerFirst db.images]
  · intro h50 hp3 hl20
    subst hp3
    subst hl20
    constructor
    · show (((sortNewestFirst db.images).drop ((3 - 1) * 20)).take 20).length = 10
      rw [List.length_take, List.length_drop, sortNewestFirst,
        List.length_insertionSort newerFirst db.images, h50]
      decide
    · show totalPages db.images.length 20 = 3
      rw [h50]
      decide

theorem C8_witness :
    0 < 3 ∧ 0 < 20 ∧
    (List.Sorted newerFirst (listPage (mkDb 50) 3 20).1 ∧
     (listPage (mkDb 50) 3 20).1
       = ((sortNewestFirst (mkDb 50).images).drop ((3 - 1) * 20)).take 20 ∧
     (listPage (mkDb 50) 3 20).2 = (mkDb 50).images.length ∧
     (∀ m : Nat, totalPages (listPage (mkDb 50) 3 20).2 20 ≤ m
         ↔ (listPage (mkDb 50) 3 20).2 ≤ 20 * m) ∧
     ((mkDb 50).images.length ≤ (3 - 1) * 20 → (listPage (mkDb 50) 3 20).1 = []) ∧
     ((listPage (mkDb 50) 3 20).1.length
         = min 20 ((mkDb 50).images.length - (3 - 1) * 20)) ∧
     ((mkDb 50).images.length = 50 → 3 = 3 → 20 = 20 →
        (listPage (mkDb 50) 3 20).1.length = 10 ∧
        totalPages (listPage (mkDb 50) 3 20).2 20 = 3)) :=
  ⟨by decide, by decide, C8_pagination (mkDb 50) 3 20 (by decide) (by decide)⟩
